import Mathlib

/-
Verification of the generic entity-store core of CalTskCts
(src/caltskcts/state_manager.py) against its specification.

The embedding models the flat-file (JSON) backend and the relational (ORM)
backend of StateManagerBase.  Python dictionaries are modelled as
insertion-ordered association lists with unique keys (an insert replaces the
value in place, a new key is appended at the end — exactly CPython dict
semantics).  Field values are modelled by an inductive `Value` covering the
scalar/array shapes the record kinds of this repository store (strings,
integers, booleans, None, and string arrays such as the calendar invitee
list), with Python truthiness and str() made explicit.  Failure injection
(lock timeout, write I/O failure, ORM commit failure) is modelled by an
explicit environment argument; raised Python exceptions are modelled by
`Except Err`.
-/

set_option autoImplicit false

namespace CalTskCts

/-- Field values as seen by the JSON-file backend: strings, integers,
booleans, None and string arrays (the only array shape the record kinds of
this repository use, e.g. the calendar `users` list). -/
inductive Value where
  | vStr (s : String)
  | vInt (n : Int)
  | vBool (b : Bool)
  | vNone
  | vList (xs : List String)
  deriving DecidableEq

/-- Python truthiness of a value (`bool(v)`), used by `search_items` in the
condition `if f in row and row[f] and ...`. -/
def Value.truthy : Value → Bool
  | .vStr s => !s.isEmpty
  | .vInt n => decide (n ≠ 0)
  | .vBool b => b
  | .vNone => false
  | .vList xs => !xs.isEmpty

/-- Python str() of a value, as applied by `search_items` via
`str(row[f])`. -/
def Value.pyStr : Value → String
  | .vStr s => s
  | .vInt n => toString n
  | .vBool b => bif b then "True" else "False"
  | .vNone => "None"
  | .vList xs =>
      "[" ++ String.intercalate ", " (xs.map (fun s => "'" ++ s ++ "'")) ++ "]"

/-- A Python dict, as an insertion-ordered association list. -/
abbrev Dict (α β : Type) := List (α × β)

/-- A record: a dict from field name to value. -/
abbrev Record := Dict String Value

/-- Lookup (`d[k]` / `d.get(k)`): value at the first matching key. -/
def dictGet {α β : Type} [DecidableEq α] (d : Dict α β) (k : α) : Option β :=
  match d with
  | [] => none
  | (k', v) :: rest => if k' = k then some v else dictGet rest k

/-- Key membership (`k in d`). -/
def hasKey {α β : Type} [DecidableEq α] (d : Dict α β) (k : α) : Bool :=
  match d with
  | [] => false
  | (k', _) :: rest => k' = k || hasKey rest k

/-- Assignment `d[k] = v` with CPython dict semantics: replace the value in
place if the key exists (keeping its position), else append at the end. -/
def dictInsert {α β : Type} [DecidableEq α] (d : Dict α β) (k : α) (v : β) :
    Dict α β :=
  match d with
  | [] => [(k, v)]
  | (k', w) :: rest =>
      if k' = k then (k, v) :: rest else (k', w) :: dictInsert rest k v

/-- Python `d.update(u)` (equivalently the overlay `{**d, **u}`): apply each
assignment of `u` in order. -/
def dictUpdate {α β : Type} [DecidableEq α] (d u : Dict α β) : Dict α β :=
  u.foldl (fun acc p => dictInsert acc p.1 p.2) d

/-- Python `del d[k]` / `d.pop(k, None)`. -/
def dictErase {α β : Type} [DecidableEq α] (d : Dict α β) (k : α) : Dict α β :=
  match d with
  | [] => []
  | (k', w) :: rest =>
      if k' = k then dictErase rest k else (k', w) :: dictErase rest k

/-- Well-formedness of a dict value: its keys are pairwise distinct.  Every
dict produced by Python has this property. -/
def DictWF {α β : Type} (d : Dict α β) : Prop := (d.map Prod.fst).Nodup

instance {α β : Type} [DecidableEq α] (d : Dict α β) : Decidable (DictWF d) := by
  unfold DictWF
  infer_instance

-- ---------------------------------------------------------------------
-- The store model (StateManagerBase, JSON-file backend)
-- ---------------------------------------------------------------------

/-- Python exceptions the store can raise, per the error taxonomy:
lock timeout (filelock.Timeout), storage I/O failure, validation failure
(ValueError raised by the per-kind hook), invalid search pattern
(ValueError raised by search_items). -/
inductive Err where
  | lockTimeout
  | ioError
  | validationError (msg : String)
  | invalidPattern (msg : String)
  deriving DecidableEq

/-- Content of the JSON state file on disk: absent, unparsable, or a JSON
object mapping decimal-string ids to records (keys held as the integers they
denote; the str/int conversion at the file boundary is a bijection). -/
inductive FileContent where
  | absent
  | malformed
  | data (d : Dict Nat Record)
  deriving DecidableEq

/-- Failure-injection environment for one flat-file operation: whether the
FileLock acquisition succeeds within its timeout, whether the file write
succeeds, and — because the source opens the state file with mode w
(truncating it) before json.dump — the content the file is left holding
when the write fails: unchanged if the open itself failed, empty or a
parse-failing partial dump if the truncation or the dump did.  The code
gives no guarantee, so the environment chooses. -/
structure Env where
  lockOk : Bool
  writeOk : Bool
  failContent : FileContent
  deriving DecidableEq

/-- The readable content of the file, after the FileNotFoundError /
JSONDecodeError fallback to an empty dict. -/
def FileContent.readData : FileContent → Dict Nat Record
  | .absent => []
  | .malformed => []
  | .data d => d

/-- One JSON-file store instance: the shared file it points at and its
in-memory cache (self._state). -/
structure FileStore where
  disk : FileContent
  cache : Dict Nat Record
  deriving DecidableEq

/-- The per-record-kind validation hook (_validate_item): returns the
message of the raised ValueError, or none when the record is accepted. -/
abbrev Validator := Record → Option String

/-- StateManagerBase._load_state_file: under the lock, read the JSON file
(absent or malformed degrades to an empty dict); a lock Timeout is caught
and logged, leaving the initial empty state, so the caller always receives
a dict and never sees the timeout. -/
def load_state_file (env : Env) (disk : FileContent) : Dict Nat Record :=
  if env.lockOk then disk.readData else []

/-- StateManagerBase._save_state_file: under the lock, re-read the file,
overlay the in-memory snapshot onto it (snapshot wins), write the merged
dict back and reload the cache from it.  Timeout and write failures are
re-raised; a timeout occurs before any file I/O, while a failed write
leaves the file in the environment-determined post-truncation state and
the cache as it was (the reload line is never reached). -/
def save_state_file (env : Env) (st : FileStore) :
    Except Err Unit × FileStore :=
  if !env.lockOk then (.error .lockTimeout, st)
  else
    let existing := st.disk.readData
    let merged := dictUpdate existing st.cache
    if !env.writeOk then
      (.error .ioError, { disk := env.failContent, cache := st.cache })
    else (.ok (), { disk := .data merged, cache := merged })

/-- StateManagerBase._save_one_file: under the lock, re-read the file, set
one key, write, and reload the cache from the written dict.  Timeout and
write failures are re-raised; a timeout occurs before any file I/O, while
a failed write leaves the file in the environment-determined
post-truncation state and the cache untouched by this function. -/
def save_one_file (env : Env) (st : FileStore) (item_id : Nat)
    (item_data : Record) : Except Err Unit × FileStore :=
  if !env.lockOk then (.error .lockTimeout, st)
  else
    let data := st.disk.readData
    let data' := dictInsert data item_id item_data
    if !env.writeOk then
      (.error .ioError, { disk := env.failContent, cache := st.cache })
    else (.ok (), { disk := .data data', cache := data' })

/-- StateManagerBase._delete_one_file: under the lock, re-read the file,
pop one key, write, and reload the cache from the written dict.  Timeout
and write failures are re-raised; a timeout occurs before any file I/O,
while a failed write leaves the file in the environment-determined
post-truncation state and the cache untouched by this function. -/
def delete_one_file (env : Env) (st : FileStore) (item_id : Nat) :
    Except Err Unit × FileStore :=
  if !env.lockOk then (.error .lockTimeout, st)
  else
    let data := st.disk.readData
    let data' := dictErase data item_id
    if !env.writeOk then
      (.error .ioError, { disk := env.failContent, cache := st.cache })
    else (.ok (), { disk := .data data', cache := data' })

/-- StateManagerBase._get_next_id: 1 on an empty state, else
max(ids) + 1 (Python max over the keys). -/
def get_next_id (state : Dict Nat Record) : Nat :=
  match state with
  | [] => 1
  | (k, _) :: rest => rest.foldl (fun m p => max m p.1) k + 1

/-- StateManagerBase.get_item (JSON-file mode): the cached record, or
None. -/
def get_item (st : FileStore) (item_id : Nat) : Option Record :=
  dictGet st.cache item_id

/-- StateManagerBase.add_item (JSON-file mode): reject an existing id with
False; run the validation hook (its ValueError propagates); set the cache
entry; then persist through _save_one_file (whose Timeout/I-O errors
propagate after the cache was already mutated). -/
def add_item (V : Validator) (env : Env) (st : FileStore) (item_id : Nat)
    (item_data : Record) : Except Err Bool × FileStore :=
  if hasKey st.cache item_id then (.ok false, st)
  else
    match V item_data with
    | some msg => (.error (.validationError msg), st)
    | none =>
      let st1 : FileStore := { st with cache := dictInsert st.cache item_id item_data }
      match save_one_file env st1 item_id item_data with
      | (.error e, st2) => (.error e, st2)
      | (.ok _, st2) => (.ok true, st2)

/-- StateManagerBase.update_item (JSON-file mode): a missing id yields
False; the merged record (existing fields overlaid with the supplied
updates) is validated (ValueError propagates, nothing mutated); the cache
entry is merged in place and persisted through _save_one_file. -/
def update_item (V : Validator) (env : Env) (st : FileStore) (item_id : Nat)
    (updates : Record) : Except Err Bool × FileStore :=
  if !hasKey st.cache item_id then (.ok false, st)
  else
    let old := (dictGet st.cache item_id).getD []
    let new_data := dictUpdate old updates
    match V new_data with
    | some msg => (.error (.validationError msg), st)
    | none =>
      let st1 : FileStore := { st with cache := dictInsert st.cache item_id new_data }
      match save_one_file env st1 item_id new_data with
      | (.error e, st2) => (.error e, st2)
      | (.ok _, st2) => (.ok true, st2)

/-- StateManagerBase.delete_item (JSON-file mode): a missing id yields
False; otherwise the cache entry is deleted and the deletion persisted
through _delete_one_file (whose errors propagate after the cache was
already mutated). -/
def delete_item (env : Env) (st : FileStore) (item_id : Nat) :
    Except Err Bool × FileStore :=
  if !hasKey st.cache item_id then (.ok false, st)
  else
    let st1 : FileStore := { st with cache := dictErase st.cache item_id }
    match delete_one_file env st1 item_id with
    | (.error e, st2) => (.error e, st2)
    | (.ok _, st2) => (.ok true, st2)

-- ---------------------------------------------------------------------
-- The store model (relational/ORM backend branch)
-- ---------------------------------------------------------------------

/-- Failure-injection environment for one ORM operation: whether the
session commit succeeds. -/
structure DBEnv where
  commitOk : Bool
  deriving DecidableEq

/-- One DB-backed store instance: the committed table rows and the
in-memory cache of ORM instances (modelled by their column dicts; the
string/native date conversion at the column boundary is a bijection and is
elided). -/
structure DBStore where
  table : Dict Nat Record
  cache : Dict Nat Record
  deriving DecidableEq

/-- StateManagerBase.add_item (DB mode): reject an existing id with False;
run the validation hook OUTSIDE the try block (its ValueError propagates);
then insert and commit inside try/except — any failure there is caught,
logged and turned into False with no cache change. -/
def add_item_db (V : Validator) (env : DBEnv) (st : DBStore) (item_id : Nat)
    (item_data : Record) : Except Err Bool × DBStore :=
  if hasKey st.cache item_id then (.ok false, st)
  else
    match V item_data with
    | some msg => (.error (.validationError msg), st)
    | none =>
      if env.commitOk then
        (.ok true, { table := dictInsert st.table item_id item_data,
                     cache := dictInsert st.cache item_id item_data })
      else (.ok false, st)

/-- StateManagerBase.update_item (DB mode): a missing id yields False; the
row is fetched, the updates applied, and the merged column map validated
INSIDE the try/except-Exception block — so a ValueError raised by the
validation hook is caught and turned into a plain False (the session is
discarded uncommitted); on success the commit is applied and the cache
updated. -/
def update_item_db (V : Validator) (env : DBEnv) (st : DBStore)
    (item_id : Nat) (updates : Record) : Except Err Bool × DBStore :=
  if !hasKey st.cache item_id then (.ok false, st)
  else
    match dictGet st.table item_id with
    | none => (.ok false, st)
    | some row =>
      let merged := dictUpdate row updates
      match V merged with
      | some _ => (.ok false, st)
      | none =>
        if env.commitOk then
          (.ok true, { table := dictInsert st.table item_id merged,
                       cache := dictInsert st.cache item_id merged })
        else (.ok false, st)

-- ---------------------------------------------------------------------
-- Model of the Python stdlib regex engine used by search_items
-- ---------------------------------------------------------------------

/-- Modelled from the Python stdlib `re` module (not part of this
repository): the fragment of regular-expression syntax search_items relies
on — literals, the dot, character classes with ranges and negation,
the * + ? quantifiers (with the lazy marker), groups and alternation.
IGNORECASE is modelled by case-folding pattern literals and input
characters. -/
inductive Regex where
  | emp
  | eps
  | chr (c : Char)
  | anyChar
  | cls (neg : Bool) (items : List (Char × Char))
  | seq (r1 r2 : Regex)
  | alt (r1 r2 : Regex)
  | star (r : Regex)
  deriving DecidableEq

/-- Does the expression accept the empty string? -/
def Regex.nullable : Regex → Bool
  | .emp => false
  | .eps => true
  | .chr _ => false
  | .anyChar => false
  | .cls _ _ => false
  | .seq r1 r2 => r1.nullable && r2.nullable
  | .alt r1 r2 => r1.nullable || r2.nullable
  | .star _ => true

/-- Membership of a character in a class body. -/
def inClass (items : List (Char × Char)) (c : Char) : Bool :=
  items.any (fun p => decide (p.1 ≤ c) && decide (c ≤ p.2))

/-- Brzozowski derivative of an expression by one character. -/
def Regex.deriv : Regex → Char → Regex
  | .emp, _ => .emp
  | .eps, _ => .emp
  | .chr c, a => if c = a then .eps else .emp
  | .anyChar, a => if a = '\n' then .emp else .eps
  | .cls neg items, a =>
      if (bif neg then !(inClass items a) else inClass items a) then .eps
      else .emp
  | .seq r1 r2, a =>
      if r1.nullable then .alt (.seq (r1.deriv a) r2) (r2.deriv a)
      else .seq (r1.deriv a) r2
  | .alt r1 r2, a => .alt (r1.deriv a) (r2.deriv a)
  | .star r, a => .seq (r.deriv a) (.star r)

/-- Does some prefix of the character list match the expression? -/
def matchSomePrefix (r : Regex) : List Char → Bool
  | [] => r.nullable
  | c :: rest => r.nullable || matchSomePrefix (r.deriv c) rest

/-- Does the expression match starting at some position (re search
semantics)? -/
def searchFrom (r : Regex) : List Char → Bool
  | [] => matchSomePrefix r []
  | c :: rest => matchSomePrefix r (c :: rest) || searchFrom r rest

/-- Python pattern.search(s) as a Boolean, with IGNORECASE folding. -/
def Regex.search (r : Regex) (s : String) : Bool :=
  searchFrom r (s.toList.map Char.toLower)

/-- Attach a * + or ? quantifier (with an optional lazy marker, rejecting
a double quantifier) to a parsed atom. -/
def applyQuant (r : Regex) (cs : List Char) : Except String (Regex × List Char) :=
  match cs with
  | [] => .ok (r, [])
  | c :: rest =>
    if c = '*' || c = '+' || c = '?' then
      let r' := if c = '*' then Regex.star r
                else if c = '+' then Regex.seq r (Regex.star r)
                else Regex.alt r Regex.eps
      match rest with
      | [] => .ok (r', [])
      | '?' :: rest₂ =>
        match rest₂ with
        | [] => .ok (r', rest₂)
        | d :: _ =>
          if d = '*' || d = '+' || d = '?' then .error "multiple repeat"
          else .ok (r', rest₂)
      | d :: _ =>
        if d = '*' || d = '+' || d = '?' then .error "multiple repeat"
        else .ok (r', rest)
    else .ok (r, cs)

mutual

/-- Parse the body of a character class, after any leading negation; a
class left open at the end of the pattern is the re error
"unterminated character class". -/
def parseClassBody : Nat → List Char → Bool → List (Char × Char) →
    Except String (List (Char × Char) × List Char)
  | 0, _, _, _ => .error "pattern too deeply nested"
  | _ + 1, [], _, _ => .error "unterminated character class"
  | fuel + 1, c :: rest, first, acc =>
    if c = ']' && !first then .ok (acc, rest)
    else if c = '\\' then
      match rest with
      | [] => .error "bad escape (end of pattern)"
      | e :: rest' => parseClassAfterChar fuel e rest' acc
    else parseClassAfterChar fuel c rest acc

/-- Continue a class body after one literal character, detecting a
range. -/
def parseClassAfterChar : Nat → Char → List Char → List (Char × Char) →
    Except String (List (Char × Char) × List Char)
  | 0, _, _, _ => .error "pattern too deeply nested"
  | fuel + 1, s, cs, acc =>
    match cs with
    | '-' :: d :: rest₂ =>
      if d = ']' then
        .ok ((s.toLower, s.toLower) :: ('-', '-') :: acc, rest₂)
      else parseClassBody fuel rest₂ false ((s.toLower, d.toLower) :: acc)
    | _ => parseClassBody fuel cs false ((s.toLower, s.toLower) :: acc)

end

mutual

/-- Parse an alternation (the whole pattern or a group body). -/
def parseAlt : Nat → List Char → Except String (Regex × List Char)
  | 0, _ => .error "pattern too deeply nested"
  | fuel + 1, cs =>
    match parseSeq fuel cs with
    | .error e => .error e
    | .ok (r, rest) =>
      match rest with
      | '|' :: rest' =>
        match parseAlt fuel rest' with
        | .error e => .error e
        | .ok (r₂, rest₂) => .ok (.alt r r₂, rest₂)
      | _ => .ok (r, rest)

/-- Parse a concatenation of quantified atoms. -/
def parseSeq : Nat → List Char → Except String (Regex × List Char)
  | 0, _ => .error "pattern too deeply nested"
  | fuel + 1, cs =>
    match cs with
    | [] => .ok (.eps, [])
    | ')' :: _ => .ok (.eps, cs)
    | '|' :: _ => .ok (.eps, cs)
    | _ =>
      match parseAtom fuel cs with
      | .error e => .error e
      | .ok (r, rest) =>
        match parseSeq fuel rest with
        | .error e => .error e
        | .ok (r₂, rest₂) => .ok (.seq r r₂, rest₂)

/-- Parse one atom (group, class, escape, dot or literal) together with
its quantifiers. -/
def parseAtom : Nat → List Char → Except String (Regex × List Char)
  | 0, _ => .error "pattern too deeply nested"
  | fuel + 1, cs =>
    match cs with
    | [] => .error "nothing to repeat"
    | c :: rest =>
      if c = '(' then
        match parseAlt fuel rest with
        | .error e => .error e
        | .ok (r, rest') =>
          match rest' with
          | ')' :: rest₂ => applyQuant r rest₂
          | _ => .error "missing ), unterminated subpattern"
      else if c = '[' then
        match rest with
        | '^' :: rest₁ =>
          match parseClassBody fuel rest₁ true [] with
          | .error e => .error e
          | .ok (items, rest₂) => applyQuant (.cls true items) rest₂
        | _ =>
          match parseClassBody fuel rest true [] with
          | .error e => .error e
          | .ok (items, rest₂) => applyQuant (.cls false items) rest₂
      else if c = '*' || c = '+' || c = '?' then .error "nothing to repeat"
      else if c = '\\' then
        match rest with
        | [] => .error "bad escape (end of pattern)"
        | e :: rest' => applyQuant (.chr e.toLower) rest'
      else if c = '.' then applyQuant .anyChar rest
      else applyQuant (.chr c.toLower) rest

end

/-- Modelled from the Python stdlib: re.compile(query, re.IGNORECASE),
returning the compiled pattern or the re.error message. -/
def re_compile (pat : String) : Except String Regex :=
  let cs := pat.toList
  match parseAlt (4 * cs.length + 8) cs with
  | .error e => .error e
  | .ok (r, rest) =>
    match rest with
    | [] => .ok r
    | _ => .error "unbalanced parenthesis"

-- ---------------------------------------------------------------------
-- search_items and list_items
-- ---------------------------------------------------------------------

/-- The row built by search_items for one cached item:
a dict literal putting item_id first and then the record's fields. -/
def row_of (item_id : Nat) (item : Record) : Record :=
  dictUpdate [("item_id", Value.vInt (item_id : Int))] item

/-- The per-row match test of search_items: some named field is present in
the row, truthy, and its str() form matches the pattern (the source loop
appends the row on the first matching field and breaks). -/
def rowMatches (rgx : Regex) (fields : List String) (row : Record) : Bool :=
  fields.any (fun f =>
    match dictGet row f with
    | some v => v.truthy && rgx.search v.pyStr
    | none => false)

/-- StateManagerBase.search_items (JSON-file mode): compile the query
case-insensitively (an uncompilable pattern raises ValueError), then
collect, in cache order, the rows whose named fields match. -/
def search_items (state : Dict Nat Record) (query : String)
    (fields : List String) : Except Err (List Record) :=
  match re_compile query with
  | .error e => .error (.invalidPattern ("Invalid regex pattern: " ++ e))
  | .ok rgx =>
    .ok ((state.filter (fun p => rowMatches rgx fields (row_of p.1 p.2))).map
      (fun p => row_of p.1 p.2))

/-- StateManagerBase.list_items (JSON-file mode): a copy of the in-memory
state. -/
def list_items (st : FileStore) : Dict Nat Record :=
  st.cache

/-- A row has some named field present with a truthy value: the part of the
search_items per-row test that does not involve the pattern. -/
def hasTruthyField (row : Record) (fields : List String) : Bool :=
  fields.any (fun f =>
    match dictGet row f with
    | some v => v.truthy
    | none => false)

deriving instance DecidableEq for Except

-- ---------------------------------------------------------------------
-- Dictionary lemmas
-- ---------------------------------------------------------------------

theorem hasKey_iff_mem_keys {α β : Type} [DecidableEq α] (d : Dict α β) (k : α) :
    hasKey d k = true ↔ k ∈ d.map Prod.fst := by
  induction d with
  | nil => simp [hasKey]
  | cons p rest ih =>
    cases p with
    | mk k' v =>
      simp only [hasKey, Bool.or_eq_true, decide_eq_true_eq, ih, List.map_cons,
        List.mem_cons]
      exact or_congr_left eq_comm

theorem dictGet_eq_none_iff {α β : Type} [DecidableEq α] (d : Dict α β) (k : α) :
    dictGet d k = none ↔ hasKey d k = false := by
  induction d with
  | nil => simp [dictGet, hasKey]
  | cons p rest ih =>
    cases p with
    | mk k' v =>
      by_cases h : k' = k
      · simp [dictGet, hasKey, h]
      · simp [dictGet, hasKey, h, ih]

theorem dictGet_insert_self {α β : Type} [DecidableEq α] (d : Dict α β)
    (k : α) (v : β) : dictGet (dictInsert d k v) k = some v := by
  induction d with
  | nil => simp [dictInsert, dictGet]
  | cons p rest ih =>
    cases p with
    | mk k' w =>
      by_cases h : k' = k
      · simp [dictInsert, h, dictGet]
      · simp [dictInsert, h, dictGet, ih]

theorem dictGet_insert_ne {α β : Type} [DecidableEq α] (d : Dict α β)
    (k k' : α) (v : β) (hne : k ≠ k') :
    dictGet (dictInsert d k v) k' = dictGet d k' := by
  induction d with
  | nil => simp [dictInsert, dictGet, hne]
  | cons p rest ih =>
    cases p with
    | mk a b =>
      by_cases ha : a = k
      · subst ha
        have hak : ¬ a = k' := hne
        simp [dictInsert, dictGet, hak]
      · simp only [dictInsert, ha, if_false]
        by_cases ha' : a = k'
        · subst ha'
          simp [dictGet]
        · simp [dictGet, ha', ih]

theorem dictGet_update_of_none {α β : Type} [DecidableEq α] (d u : Dict α β)
    (k : α) (h : dictGet u k = none) :
    dictGet (dictUpdate d u) k = dictGet d k := by
  induction u generalizing d with
  | nil => simp [dictUpdate]
  | cons p rest ih =>
    cases p with
    | mk a b =>
      by_cases ha : a = k
      · simp [dictGet, ha] at h
      · simp only [dictGet, ha, if_false] at h
        show dictGet (dictUpdate (dictInsert d a b) rest) k = dictGet d k
        rw [ih (dictInsert d a b) h, dictGet_insert_ne d a k b ha]

theorem dictGet_update_of_some {α β : Type} [DecidableEq α] (d u : Dict α β)
    (k : α) (v : β) (hwf : DictWF u) (h : dictGet u k = some v) :
    dictGet (dictUpdate d u) k = some v := by
  induction u generalizing d with
  | nil => simp [dictGet] at h
  | cons p rest ih =>
    cases p with
    | mk a b =>
      have hwf' : DictWF rest ∧ a ∉ rest.map Prod.fst := by
        have := hwf
        simp only [DictWF, List.map_cons, List.nodup_cons] at this
        exact ⟨this.2, this.1⟩
      by_cases ha : a = k
      · subst ha
        have hb : b = v := by simpa [dictGet] using h
        subst hb
        show dictGet (dictUpdate (dictInsert d a b) rest) a = some b
        have hnk : dictGet rest a = none := by
          rw [dictGet_eq_none_iff]
          cases hh : hasKey rest a
          · rfl
          · exact absurd ((hasKey_iff_mem_keys rest a).mp hh) hwf'.2
        rw [dictGet_update_of_none (dictInsert d a b) rest a hnk]
        exact dictGet_insert_self d a b
      · simp only [dictGet, ha, if_false] at h
        exact ih (dictInsert d a b) hwf'.1 h

theorem dictGet_erase_self {α β : Type} [DecidableEq α] (d : Dict α β) (k : α) :
    dictGet (dictErase d k) k = none := by
  induction d with
  | nil => simp [dictErase, dictGet]
  | cons p rest ih =>
    cases p with
    | mk a b =>
      by_cases ha : a = k
      · simp [dictErase, ha, ih]
      · simp [dictErase, ha, dictGet, ih]

theorem dictGet_erase_ne {α β : Type} [DecidableEq α] (d : Dict α β)
    (k k' : α) (hne : k' ≠ k) :
    dictGet (dictErase d k) k' = dictGet d k' := by
  induction d with
  | nil => simp [dictErase]
  | cons p rest ih =>
    cases p with
    | mk a b =>
      by_cases ha : a = k
      · subst ha
        have hak : ¬ a = k' := fun h => hne h.symm
        simp [dictErase, dictGet, hak, ih]
      · simp only [dictErase, ha, if_false]
        by_cases ha' : a = k'
        · subst ha'
          simp [dictGet]
        · simp [dictGet, ha', ih]


-- ---------------------------------------------------------------------
-- Helper lemmas: the empty pattern, maxima of key lists
-- ---------------------------------------------------------------------

theorem matchSomePrefix_eps (cs : List Char) :
    matchSomePrefix Regex.eps cs = true := by
  cases cs <;> simp [matchSomePrefix, Regex.nullable]

theorem searchFrom_eps (cs : List Char) : searchFrom Regex.eps cs = true := by
  cases cs <;> simp [searchFrom, matchSomePrefix_eps]

theorem search_eps (s : String) : Regex.eps.search s = true :=
  searchFrom_eps _

theorem rowMatches_eps (fields : List String) (row : Record) :
    rowMatches Regex.eps fields row = hasTruthyField row fields := by
  unfold rowMatches hasTruthyField
  congr 1
  funext f
  cases dictGet row f with
  | none => rfl
  | some v => simp [search_eps]

theorem le_foldl_max (l : List (Nat × Record)) (a : Nat) :
    a ≤ l.foldl (fun m p => max m p.1) a := by
  induction l generalizing a with
  | nil => simp
  | cons q rest ih => exact le_trans (le_max_left a q.1) (ih (max a q.1))

theorem mem_le_foldl_max (l : List (Nat × Record)) (a : Nat)
    (p : Nat × Record) (hp : p ∈ l) :
    p.1 ≤ l.foldl (fun m q => max m q.1) a := by
  induction l generalizing a with
  | nil => cases hp
  | cons q rest ih =>
    cases hp with
    | head => exact le_trans (le_max_right a p.1) (le_foldl_max rest _)
    | tail _ h => exact ih (max a q.1) h

theorem foldl_max_mem (l : List (Nat × Record)) (a : Nat) :
    l.foldl (fun m q => max m q.1) a = a ∨
      ∃ p ∈ l, l.foldl (fun m q => max m q.1) a = p.1 := by
  induction l generalizing a with
  | nil => exact Or.inl rfl
  | cons q rest ih =>
    have step : List.foldl (fun m q => max m q.1) a (q :: rest) =
        List.foldl (fun m q => max m q.1) (max a q.1) rest := rfl
    rcases ih (max a q.1) with h | ⟨p, hp, hval⟩
    · rcases Nat.le_total q.1 a with hle | hle
      · exact Or.inl (by rw [step, h, Nat.max_eq_left hle])
      · refine Or.inr ⟨q, List.mem_cons_self _ _, ?_⟩
        rw [step, h, Nat.max_eq_right hle]
    · exact Or.inr ⟨p, List.mem_cons_of_mem _ hp, by rw [step, hval]⟩

theorem mem_lt_get_next_id (st : Dict Nat Record) (p : Nat × Record)
    (hp : p ∈ st) : p.1 < get_next_id st := by
  cases st with
  | nil => cases hp
  | cons q rest =>
    show p.1 < rest.foldl (fun m q => max m q.1) q.1 + 1
    cases hp with
    | head => exact Nat.lt_succ_of_le (le_foldl_max rest _)
    | tail _ h => exact Nat.lt_succ_of_le (mem_le_foldl_max rest _ p h)

theorem hasKey_get_next_id (st : Dict Nat Record) :
    hasKey st (get_next_id st) = false := by
  cases hh : hasKey st (get_next_id st)
  · rfl
  · exfalso
    rcases List.mem_map.mp ((hasKey_iff_mem_keys st (get_next_id st)).mp hh)
      with ⟨p, hp, hval⟩
    exact absurd (hval ▸ mem_lt_get_next_id st p hp) (lt_irrefl _)

theorem hasKey_of_dictGet_some {α β : Type} [DecidableEq α] (d : Dict α β)
    (k : α) (v : β) (h : dictGet d k = some v) : hasKey d k = true := by
  cases hh : hasKey d k
  · rw [(dictGet_eq_none_iff d k).mpr hh] at h
    cases h
  · rfl

-- ---------------------------------------------------------------------
-- Claims
-- ---------------------------------------------------------------------

/-- Claim C8: nextId returns 1 when the store is empty and
max(existing ids) + 1 otherwise (in particular 6 after ids 2, 5, 3);
in this embedding _get_next_id is by construction a pure function of the
state, with no mutation. -/
theorem claim_C8 :
    get_next_id [] = 1 ∧
    (∀ st : Dict Nat Record, st ≠ [] →
      ∃ m, m ∈ st.map Prod.fst ∧ (∀ j ∈ st.map Prod.fst, j ≤ m) ∧
        get_next_id st = m + 1) ∧
    get_next_id [(2, []), (5, []), (3, [])] = 6 := by
  refine ⟨rfl, ?_, by decide⟩
  intro st hne
  match st with
  | [] => exact absurd rfl hne
  | (k, v) :: rest =>
    have hid : get_next_id ((k, v) :: rest) =
        rest.foldl (fun m (q : Nat × Record) => max m q.1) k + 1 := rfl
    refine ⟨rest.foldl (fun m (q : Nat × Record) => max m q.1) k, ?_, ?_, hid⟩
    · rcases foldl_max_mem rest k with h | ⟨p, hp, hval⟩
      · rw [h]; exact List.mem_map.mpr ⟨(k, v), List.mem_cons_self _ _, rfl⟩
      · rw [hval]
        exact List.mem_map.mpr ⟨p, List.mem_cons_of_mem _ hp, rfl⟩
    · intro j hj
      rcases List.mem_map.mp hj with ⟨p, hp, hval⟩
      cases hp with
      | head => exact hval ▸ le_foldl_max rest _
      | tail _ h => exact hval ▸ mem_le_foldl_max rest _ p h

/-- Witness for C8 at the store with ids 2, 5, 3. -/
theorem claim_C8_witness :
    ∃ m, m ∈ ([(2, []), (5, []), (3, [])] : Dict Nat Record).map Prod.fst ∧
      (∀ j ∈ ([(2, []), (5, []), (3, [])] : Dict Nat Record).map Prod.fst,
        j ≤ m) ∧
      get_next_id [(2, []), (5, []), (3, [])] = m + 1 :=
  claim_C8.2.1 [(2, []), (5, []), (3, [])] (by decide)

/-- Claim C9: add_item with an id already present returns False and leaves
the whole store (cache and disk) exactly as it was, regardless of the
validator and of the environment. -/
theorem claim_C9 (V : Validator) (env : Env) (st : FileStore) (item_id : Nat)
    (item_data : Record) (h : hasKey st.cache item_id = true) :
    add_item V env st item_id item_data = (.ok false, st) := by
  simp [add_item, h]

/-- Witness for C9: adding id 1 to a store already holding id 1. -/
theorem claim_C9_witness :
    hasKey ([(1, [("title", Value.vStr "alpha")])] : Dict Nat Record) 1 = true ∧
    add_item (fun _ => none) { lockOk := true, writeOk := true, failContent := .absent }
      { disk := .data [(1, [("title", Value.vStr "alpha")])],
        cache := [(1, [("title", Value.vStr "alpha")])] } 1
      [("title", Value.vStr "beta")] =
    (.ok false,
     { disk := .data [(1, [("title", Value.vStr "alpha")])],
       cache := [(1, [("title", Value.vStr "alpha")])] }) :=
  ⟨by decide, claim_C9 _ _ _ _ _ (by decide)⟩

/-- Claim C10: on a non-empty store every present id is strictly below
get_next_id, so add_item at get_next_id can never take the
already-exists branch (the only source of an ok-false result in file
mode). -/
theorem claim_C10 (st : FileStore) (V : Validator) (env : Env) (r : Record)
    (hne : st.cache ≠ []) :
    (∀ p ∈ st.cache, p.1 < get_next_id st.cache) ∧
    (add_item V env st (get_next_id st.cache) r).1 ≠ .ok false := by
  refine ⟨fun p hp => mem_lt_get_next_id st.cache p hp, ?_⟩
  unfold add_item
  rw [hasKey_get_next_id]
  simp only [Bool.false_eq_true, if_false]
  cases hV : V r with
  | some msg => simp
  | none =>
    unfold save_one_file
    cases hl : env.lockOk with
    | false => simp
    | true =>
      cases hw : env.writeOk with
      | false => simp
      | true => simp

/-- Witness for C10 on the one-record store with id 1. -/
theorem claim_C10_witness :
    (1, ([("a", Value.vInt 1)] : Record)).1 <
      get_next_id [(1, [("a", Value.vInt 1)])] ∧
    (add_item (fun _ => none) { lockOk := true, writeOk := true, failContent := .absent }
      { disk := .absent, cache := [(1, [("a", Value.vInt 1)])] }
      (get_next_id [(1, [("a", Value.vInt 1)])])
      [("b", Value.vInt 2)]).1 ≠ .ok false :=
  ⟨(claim_C10 { disk := .absent, cache := [(1, [("a", Value.vInt 1)])] }
      (fun _ => none) { lockOk := true, writeOk := true, failContent := .absent }
      [("b", Value.vInt 2)] (by decide)).1 _ (by decide),
   (claim_C10 { disk := .absent, cache := [(1, [("a", Value.vInt 1)])] }
      (fun _ => none) { lockOk := true, writeOk := true, failContent := .absent }
      [("b", Value.vInt 2)] (by decide)).2⟩

/-- Counterexample to claim C1 as stated: on the store holding ids 1 and 2,
delete_item 2 succeeds and the very next get_next_id returns 2 — the
deleted identifier is reused. -/
theorem claim_C1_counterexample :
    (delete_item { lockOk := true, writeOk := true, failContent := .absent }
        { disk := .data [(1, [("a", Value.vInt 1)]), (2, [("a", Value.vInt 2)])],
          cache := [(1, [("a", Value.vInt 1)]), (2, [("a", Value.vInt 2)])] }
        2).1 = .ok true ∧
    get_next_id (delete_item { lockOk := true, writeOk := true, failContent := .absent }
        { disk := .data [(1, [("a", Value.vInt 1)]), (2, [("a", Value.vInt 2)])],
          cache := [(1, [("a", Value.vInt 1)]), (2, [("a", Value.vInt 2)])] }
        2).2.cache = 2 := by decide

/-- Claim C1, amended: after a successful delete of d, get_next_id cannot
return d while some identifier at least d remains in the store (it is
max(remaining ids) + 1); reuse of d happens exactly when d exceeded every
remaining id, as the counterexample shows. -/
theorem claim_C1_amended (env : Env) (st st' : FileStore) (d : Nat)
    (hdel : delete_item env st d = (.ok true, st'))
    (k : Nat) (r : Record) (hk : (k, r) ∈ st'.cache) (hle : d ≤ k) :
    get_next_id st'.cache ≠ d := by
  have hlt := mem_lt_get_next_id st'.cache (k, r) hk
  omega

/-- Witness for the amended C1: delete id 1 from the store holding 1 and 2;
id 2 remains and get_next_id is not 1. -/
theorem claim_C1_witness :
    get_next_id (delete_item { lockOk := true, writeOk := true, failContent := .absent }
        { disk := .data [(1, [("a", Value.vInt 1)]), (2, [("a", Value.vInt 2)])],
          cache := [(1, [("a", Value.vInt 1)]), (2, [("a", Value.vInt 2)])] }
        1).2.cache ≠ 1 :=
  claim_C1_amended { lockOk := true, writeOk := true, failContent := .absent }
    { disk := .data [(1, [("a", Value.vInt 1)]), (2, [("a", Value.vInt 2)])],
      cache := [(1, [("a", Value.vInt 1)]), (2, [("a", Value.vInt 2)])] }
    { disk := .data [(2, [("a", Value.vInt 2)])],
      cache := [(2, [("a", Value.vInt 2)])] }
    1 (by decide) 2 [("a", Value.vInt 2)] (by decide) (by decide)

/-- Claim C2: under the lock, _save_state_file writes back exactly the
overlay of the in-memory snapshot onto the freshly read disk content
(snapshot wins on key collision, disk-only keys preserved) and reloads the
cache from that merged dict; and in the two-writer scenario — instance A
saves id 1 into the shared file, instance B (whose stale cache holds only
id 2) saves afterwards — a fresh load of the file sees both ids 1 and 2. -/
theorem claim_C2 :
    (∀ (env : Env) (st : FileStore), env.lockOk = true → env.writeOk = true →
      save_state_file env st =
        (.ok (), { disk := .data (dictUpdate st.disk.readData st.cache),
                   cache := dictUpdate st.disk.readData st.cache }) ∧
      (DictWF st.cache → ∀ k : Nat,
        dictGet (dictUpdate st.disk.readData st.cache) k =
          if hasKey st.cache k = true then dictGet st.cache k
          else dictGet st.disk.readData k)) ∧
    (load_state_file { lockOk := true, writeOk := true, failContent := .absent }
      (save_state_file { lockOk := true, writeOk := true, failContent := .absent }
        { disk := (save_state_file { lockOk := true, writeOk := true, failContent := .absent }
            { disk := .absent,
              cache := [(1, [("title", Value.vStr "alpha")])] }).2.disk,
          cache := [(2, [("title", Value.vStr "beta")])] }).2.disk).map
      Prod.fst = [1, 2] := by
  constructor
  · intro env st hl hw
    constructor
    · simp [save_state_file, hl, hw]
    · intro hwf k
      by_cases hk : hasKey st.cache k = true
      · obtain ⟨v, hv⟩ : ∃ v, dictGet st.cache k = some v := by
          cases hg : dictGet st.cache k with
          | none =>
            have hx := (dictGet_eq_none_iff st.cache k).mp hg
            rw [hx] at hk
            exact absurd hk (by simp)
          | some v => exact ⟨v, rfl⟩
        rw [if_pos hk, hv]
        exact dictGet_update_of_some _ _ _ _ hwf hv
      · have hnone : dictGet st.cache k = none :=
          (dictGet_eq_none_iff st.cache k).mpr (by simpa using hk)
        rw [if_neg hk]
        exact dictGet_update_of_none _ _ _ hnone
  · decide

/-- Witness for C2 at a concrete disk/cache pair sharing key 7. -/
theorem claim_C2_witness :
    dictGet (dictUpdate (FileContent.data
        [(7, [("a", Value.vInt 1)]), (8, [("c", Value.vInt 5)])]).readData
        [(7, [("a", Value.vInt 2)]), (9, [("b", Value.vInt 3)])]) 7 =
      (if hasKey ([(7, [("a", Value.vInt 2)]), (9, [("b", Value.vInt 3)])] :
          Dict Nat Record) 7 = true
       then dictGet ([(7, [("a", Value.vInt 2)]), (9, [("b", Value.vInt 3)])] :
          Dict Nat Record) 7
       else dictGet (FileContent.data
          [(7, [("a", Value.vInt 1)]), (8, [("c", Value.vInt 5)])]).readData 7) :=
  (claim_C2.1 { lockOk := true, writeOk := true, failContent := .absent }
      { disk := .data [(7, [("a", Value.vInt 1)]), (8, [("c", Value.vInt 5)])],
        cache := [(7, [("a", Value.vInt 2)]), (9, [("b", Value.vInt 3)])] }
      rfl rfl).2 (by decide) 7

/-- Claim C7: update_item runs the validation hook on the merged record
(existing fields overlaid with the supplied updates), not on the partial
update alone (its error propagates untouched), and on success get shows
exactly that merged record: each supplied field reads its new value and
every other field of the record is unchanged. -/
theorem claim_C7 (V : Validator) (env : Env) (st : FileStore) (item_id : Nat)
    (updates old : Record)
    (hold : dictGet st.cache item_id = some old)
    (hwfu : DictWF updates) :
    (∀ msg, V (dictUpdate old updates) = some msg →
      update_item V env st item_id updates =
        (.error (.validationError msg), st)) ∧
    (V (dictUpdate old updates) = none → env.lockOk = true →
      env.writeOk = true →
      update_item V env st item_id updates =
        (.ok true,
         { disk := .data (dictInsert st.disk.readData item_id
             (dictUpdate old updates)),
           cache := dictInsert st.disk.readData item_id
             (dictUpdate old updates) }) ∧
      get_item ({ disk := FileContent.data (dictInsert st.disk.readData item_id
                    (dictUpdate old updates)),
                  cache := dictInsert st.disk.readData item_id
                    (dictUpdate old updates) } : FileStore) item_id =
        some (dictUpdate old updates) ∧
      (∀ f v, dictGet updates f = some v →
        dictGet (dictUpdate old updates) f = some v) ∧
      (∀ f, dictGet updates f = none →
        dictGet (dictUpdate old updates) f = dictGet old f)) := by
  have hk : hasKey st.cache item_id = true :=
    hasKey_of_dictGet_some _ _ _ hold
  constructor
  · intro msg hv
    simp [update_item, hk, hold, hv]
  · intro hv hl hw
    refine ⟨?_, ?_, ?_, ?_⟩
    · simp [update_item, hk, hold, hv, save_one_file, hl, hw]
    · show dictGet (dictInsert st.disk.readData item_id
        (dictUpdate old updates)) item_id = some (dictUpdate old updates)
      exact dictGet_insert_self _ _ _
    · exact fun f v hf => dictGet_update_of_some old updates f v hwfu hf
    · exact fun f hf => dictGet_update_of_none old updates f hf

/-- Witness for C7: update the title of record 1 and observe the state
field unchanged. -/
theorem claim_C7_witness :
    update_item (fun _ => none) { lockOk := true, writeOk := true, failContent := .absent }
      { disk := .data [(1, [("title", Value.vStr "a"),
          ("state", Value.vStr "New")])],
        cache := [(1, [("title", Value.vStr "a"),
          ("state", Value.vStr "New")])] } 1
      [("title", Value.vStr "b")] =
      (.ok true,
       { disk := .data (dictInsert (FileContent.data
             [(1, [("title", Value.vStr "a"),
               ("state", Value.vStr "New")])]).readData 1
             (dictUpdate [("title", Value.vStr "a"), ("state", Value.vStr "New")]
               [("title", Value.vStr "b")])),
         cache := dictInsert (FileContent.data
             [(1, [("title", Value.vStr "a"),
               ("state", Value.vStr "New")])]).readData 1
             (dictUpdate [("title", Value.vStr "a"), ("state", Value.vStr "New")]
               [("title", Value.vStr "b")]) }) ∧
    dictGet (dictUpdate [("title", Value.vStr "a"), ("state", Value.vStr "New")]
        [("title", Value.vStr "b")]) "state" =
      dictGet [("title", Value.vStr "a"), ("state", Value.vStr "New")] "state" :=
  ⟨((claim_C7 (fun _ => none) { lockOk := true, writeOk := true, failContent := .absent }
      { disk := .data [(1, [("title", Value.vStr "a"),
          ("state", Value.vStr "New")])],
        cache := [(1, [("title", Value.vStr "a"),
          ("state", Value.vStr "New")])] } 1
      [("title", Value.vStr "b")]
      [("title", Value.vStr "a"), ("state", Value.vStr "New")]
      (by decide) (by decide)).2 rfl rfl rfl).1,
   ((claim_C7 (fun _ => none) { lockOk := true, writeOk := true, failContent := .absent }
      { disk := .data [(1, [("title", Value.vStr "a"),
          ("state", Value.vStr "New")])],
        cache := [(1, [("title", Value.vStr "a"),
          ("state", Value.vStr "New")])] } 1
      [("title", Value.vStr "b")]
      [("title", Value.vStr "a"), ("state", Value.vStr "New")]
      (by decide) (by decide)).2 rfl rfl rfl).2.2.2 "state" (by decide)⟩

theorem add_item_validation_propagates (V : Validator) (env : Env)
    (st : FileStore) (item_id : Nat) (r : Record) (msg : String)
    (hk : hasKey st.cache item_id = false) (hv : V r = some msg) :
    add_item V env st item_id r = (.error (.validationError msg), st) := by
  simp [add_item, hk, hv]

theorem update_item_validation_propagates (V : Validator) (env : Env)
    (st : FileStore) (item_id : Nat) (u old : Record) (msg : String)
    (hold : dictGet st.cache item_id = some old)
    (hv : V (dictUpdate old u) = some msg) :
    update_item V env st item_id u = (.error (.validationError msg), st) := by
  have hk := hasKey_of_dictGet_some _ _ _ hold
  simp [update_item, hk, hold, hv]

theorem add_item_db_validation_propagates (V : Validator) (env : DBEnv)
    (st : DBStore) (item_id : Nat) (r : Record) (msg : String)
    (hk : hasKey st.cache item_id = false) (hv : V r = some msg) :
    add_item_db V env st item_id r = (.error (.validationError msg), st) := by
  simp [add_item_db, hk, hv]

theorem update_item_db_validation_swallowed (V : Validator) (env : DBEnv)
    (st : DBStore) (item_id : Nat) (u row : Record) (msg : String)
    (hk : hasKey st.cache item_id = true)
    (hrow : dictGet st.table item_id = some row)
    (hv : V (dictUpdate row u) = some msg) :
    update_item_db V env st item_id u = (.ok false, st) := by
  simp [update_item_db, hk, hrow, hv]

theorem add_item_lock_timeout (V : Validator) (env : Env) (st : FileStore)
    (item_id : Nat) (r : Record) (hl : env.lockOk = false)
    (hk : hasKey st.cache item_id = false) (hv : V r = none) :
    add_item V env st item_id r =
      (.error .lockTimeout,
       { disk := st.disk, cache := dictInsert st.cache item_id r }) := by
  simp [add_item, hk, hv, save_one_file, hl]

theorem delete_item_lock_timeout (env : Env) (st : FileStore) (item_id : Nat)
    (hl : env.lockOk = false) (hk : hasKey st.cache item_id = true) :
    delete_item env st item_id =
      (.error .lockTimeout,
       { disk := st.disk, cache := dictErase st.cache item_id }) := by
  simp [delete_item, hk, delete_one_file, hl]

theorem update_item_lock_timeout (V : Validator) (env : Env) (st : FileStore)
    (item_id : Nat) (u old : Record) (hl : env.lockOk = false)
    (hold : dictGet st.cache item_id = some old)
    (hv : V (dictUpdate old u) = none) :
    update_item V env st item_id u =
      (.error .lockTimeout,
       { disk := st.disk,
         cache := dictInsert st.cache item_id (dictUpdate old u) }) := by
  have hk := hasKey_of_dictGet_some _ _ _ hold
  simp [update_item, hk, hold, hv, save_one_file, hl]

theorem add_item_io_error (V : Validator) (env : Env) (st : FileStore)
    (item_id : Nat) (r : Record) (hl : env.lockOk = true)
    (hw : env.writeOk = false) (hk : hasKey st.cache item_id = false)
    (hv : V r = none) :
    add_item V env st item_id r =
      (.error .ioError,
       { disk := env.failContent, cache := dictInsert st.cache item_id r }) := by
  simp [add_item, hk, hv, save_one_file, hl, hw]

theorem update_item_io_error (V : Validator) (env : Env) (st : FileStore)
    (item_id : Nat) (u old : Record) (hl : env.lockOk = true)
    (hw : env.writeOk = false) (hold : dictGet st.cache item_id = some old)
    (hv : V (dictUpdate old u) = none) :
    update_item V env st item_id u =
      (.error .ioError,
       { disk := env.failContent,
         cache := dictInsert st.cache item_id (dictUpdate old u) }) := by
  have hk := hasKey_of_dictGet_some _ _ _ hold
  simp [update_item, hk, hold, hv, save_one_file, hl, hw]

theorem delete_item_io_error (env : Env) (st : FileStore) (item_id : Nat)
    (hl : env.lockOk = true) (hw : env.writeOk = false)
    (hk : hasKey st.cache item_id = true) :
    delete_item env st item_id =
      (.error .ioError,
       { disk := env.failContent, cache := dictErase st.cache item_id }) := by
  simp [delete_item, hk, delete_one_file, hl, hw]

theorem add_item_db_commit_failure (V : Validator) (env : DBEnv)
    (st : DBStore) (item_id : Nat) (r : Record)
    (hk : hasKey st.cache item_id = false) (hv : V r = none)
    (hc : env.commitOk = false) :
    add_item_db V env st item_id r = (.ok false, st) := by
  simp [add_item_db, hk, hv, hc]

theorem update_item_db_commit_failure (V : Validator) (env : DBEnv)
    (st : DBStore) (item_id : Nat) (u row : Record)
    (hk : hasKey st.cache item_id = true)
    (hrow : dictGet st.table item_id = some row)
    (hv : V (dictUpdate row u) = none) (hc : env.commitOk = false) :
    update_item_db V env st item_id u = (.ok false, st) := by
  simp [update_item_db, hk, hrow, hv, hc]

/-- Counterexample to claim C3 as stated: an add_item that fails with a
lock timeout leaves the freshly added record visible in the in-memory
cache while the durable copy is unchanged — a partial state change is
visible after a failed operation. -/
theorem claim_C3_counterexample :
    add_item (fun _ => none) { lockOk := false, writeOk := true, failContent := .absent }
      { disk := .absent, cache := [] } 1 [("title", Value.vStr "alpha")] =
    (.error .lockTimeout,
     { disk := .absent, cache := [(1, [("title", Value.vStr "alpha")])] }) := by
  decide

/-- Claim C3, amended: failures decided before the persist step —
already-exists on add, not-found on update and delete, validation errors
on add and update — leave the in-memory cache and the durable copy
exactly as they were, and DB-backend persist failures are caught and
reported as a plain False with cache and table unchanged; but flat-file
persist failures propagate with the in-memory cache already mutated:
under a lock timeout the durable copy is untouched (the timeout occurs
before any file I/O), and under a write I/O failure the file is left in
whatever state the failed, truncating write produced — the code
guarantees nothing about it. -/
theorem claim_C3_amended :
    (∀ (V : Validator) (env : Env) (st : FileStore) (item_id : Nat)
        (r : Record),
      hasKey st.cache item_id = true →
      add_item V env st item_id r = (.ok false, st)) ∧
    (∀ (V : Validator) (env : Env) (st : FileStore) (item_id : Nat)
        (u : Record),
      hasKey st.cache item_id = false →
      update_item V env st item_id u = (.ok false, st)) ∧
    (∀ (env : Env) (st : FileStore) (item_id : Nat),
      hasKey st.cache item_id = false →
      delete_item env st item_id = (.ok false, st)) ∧
    (∀ (V : Validator) (env : Env) (st : FileStore) (item_id : Nat)
        (r : Record) (msg : String),
      hasKey st.cache item_id = false → V r = some msg →
      add_item V env st item_id r = (.error (.validationError msg), st)) ∧
    (∀ (V : Validator) (env : Env) (st : FileStore) (item_id : Nat)
        (u old : Record) (msg : String),
      dictGet st.cache item_id = some old →
      V (dictUpdate old u) = some msg →
      update_item V env st item_id u = (.error (.validationError msg), st)) ∧
    (∀ (V : Validator) (env : Env) (st : FileStore) (item_id : Nat)
        (r : Record),
      env.lockOk = false → hasKey st.cache item_id = false → V r = none →
      add_item V env st item_id r =
        (.error .lockTimeout,
         { disk := st.disk, cache := dictInsert st.cache item_id r })) ∧
    (∀ (V : Validator) (env : Env) (st : FileStore) (item_id : Nat)
        (u old : Record),
      env.lockOk = false → dictGet st.cache item_id = some old →
      V (dictUpdate old u) = none →
      update_item V env st item_id u =
        (.error .lockTimeout,
         { disk := st.disk,
           cache := dictInsert st.cache item_id (dictUpdate old u) })) ∧
    (∀ (env : Env) (st : FileStore) (item_id : Nat),
      env.lockOk = false → hasKey st.cache item_id = true →
      delete_item env st item_id =
        (.error .lockTimeout,
         { disk := st.disk, cache := dictErase st.cache item_id })) ∧
    (∀ (V : Validator) (env : Env) (st : FileStore) (item_id : Nat)
        (r : Record),
      env.lockOk = true → env.writeOk = false →
      hasKey st.cache item_id = false → V r = none →
      add_item V env st item_id r =
        (.error .ioError,
         { disk := env.failContent,
           cache := dictInsert st.cache item_id r })) ∧
    (∀ (V : Validator) (env : Env) (st : FileStore) (item_id : Nat)
        (u old : Record),
      env.lockOk = true → env.writeOk = false →
      dictGet st.cache item_id = some old →
      V (dictUpdate old u) = none →
      update_item V env st item_id u =
        (.error .ioError,
         { disk := env.failContent,
           cache := dictInsert st.cache item_id (dictUpdate old u) })) ∧
    (∀ (env : Env) (st : FileStore) (item_id : Nat),
      env.lockOk = true → env.writeOk = false →
      hasKey st.cache item_id = true →
      delete_item env st item_id =
        (.error .ioError,
         { disk := env.failContent, cache := dictErase st.cache item_id })) ∧
    (∀ (V : Validator) (env : DBEnv) (st : DBStore) (item_id : Nat)
        (r : Record),
      hasKey st.cache item_id = false → V r = none → env.commitOk = false →
      add_item_db V env st item_id r = (.ok false, st)) ∧
    (∀ (V : Validator) (env : DBEnv) (st : DBStore) (item_id : Nat)
        (u row : Record),
      hasKey st.cache item_id = true →
      dictGet st.table item_id = some row →
      V (dictUpdate row u) = none → env.commitOk = false →
      update_item_db V env st item_id u = (.ok false, st)) := by
  refine ⟨?_, ?_, ?_,
    add_item_validation_propagates,
    update_item_validation_propagates,
    add_item_lock_timeout,
    update_item_lock_timeout,
    delete_item_lock_timeout,
    add_item_io_error,
    update_item_io_error,
    delete_item_io_error,
    add_item_db_commit_failure,
    update_item_db_commit_failure⟩
  · intro V env st item_id r hk
    simp [add_item, hk]
  · intro V env st item_id u hk
    simp [update_item, hk]
  · intro env st item_id hk
    simp [delete_item, hk]

/-- Witness for the amended C3: a lock-timed-out add mutates only the
cache, and a write-failed add propagates the I/O error with the cache
mutated and the file in the state the failed write left. -/
theorem claim_C3_witness :
    add_item (fun _ => none) { lockOk := false, writeOk := true, failContent := .absent }
      { disk := .data [(5, [("k", Value.vInt 9)])], cache := [] } 2
      [("title", Value.vStr "x")] =
    (.error .lockTimeout,
     { disk := FileContent.data [(5, [("k", Value.vInt 9)])],
       cache := dictInsert [] 2 [("title", Value.vStr "x")] }) ∧
    add_item (fun _ => none)
      { lockOk := true, writeOk := false, failContent := .malformed }
      { disk := .data [(5, [("k", Value.vInt 9)])], cache := [] } 2
      [("title", Value.vStr "x")] =
    (.error .ioError,
     { disk := ({ lockOk := true, writeOk := false, failContent := .malformed } : Env).failContent,
       cache := dictInsert [] 2 [("title", Value.vStr "x")] }) :=
  ⟨claim_C3_amended.2.2.2.2.2.1 (fun _ => none)
    { lockOk := false, writeOk := true, failContent := .absent }
    { disk := .data [(5, [("k", Value.vInt 9)])], cache := [] } 2
    [("title", Value.vStr "x")] rfl (by decide) rfl,
   claim_C3_amended.2.2.2.2.2.2.2.2.1 (fun _ => none)
    { lockOk := true, writeOk := false, failContent := .malformed }
    { disk := .data [(5, [("k", Value.vInt 9)])], cache := [] } 2
    [("title", Value.vStr "x")] rfl rfl (by decide) rfl⟩

/-- Counterexample to claim C4 as stated: _load_state_file under a lock
timeout does not propagate the timeout — it silently degrades into a
successful, empty load even though the file holds a record. -/
theorem claim_C4_counterexample :
    load_state_file { lockOk := false, writeOk := true, failContent := .absent }
      (.data [(1, [("title", Value.vStr "alpha")])]) = [] := by decide

/-- Claim C4, amended: on the write paths (_save_state_file,
_save_one_file, _delete_one_file) a lock timeout propagates uncaught as
the distinct lock-timeout error with the store unchanged;
_load_state_file alone catches the timeout and silently returns the
empty state. -/
theorem claim_C4_amended (env : Env) (st : FileStore) (item_id : Nat)
    (r : Record) (disk : FileContent) (h : env.lockOk = false) :
    save_state_file env st = (.error .lockTimeout, st) ∧
    save_one_file env st item_id r = (.error .lockTimeout, st) ∧
    delete_one_file env st item_id = (.error .lockTimeout, st) ∧
    load_state_file env disk = [] := by
  refine ⟨?_, ?_, ?_, ?_⟩ <;>
    simp [save_state_file, save_one_file, delete_one_file, load_state_file, h]

/-- Witness for the amended C4 at a concrete store and file content. -/
theorem claim_C4_witness :
    save_state_file { lockOk := false, writeOk := true, failContent := .absent }
      { disk := .absent, cache := [(1, [("a", Value.vInt 1)])] } =
      (.error .lockTimeout,
       { disk := .absent, cache := [(1, [("a", Value.vInt 1)])] }) ∧
    save_one_file { lockOk := false, writeOk := true, failContent := .absent }
      { disk := .absent, cache := [(1, [("a", Value.vInt 1)])] } 2 [] =
      (.error .lockTimeout,
       { disk := .absent, cache := [(1, [("a", Value.vInt 1)])] }) ∧
    delete_one_file { lockOk := false, writeOk := true, failContent := .absent }
      { disk := .absent, cache := [(1, [("a", Value.vInt 1)])] } 1 =
      (.error .lockTimeout,
       { disk := .absent, cache := [(1, [("a", Value.vInt 1)])] }) ∧
    load_state_file { lockOk := false, writeOk := true, failContent := .absent }
      (.data [(3, [("b", Value.vInt 2)])]) = [] :=
  claim_C4_amended { lockOk := false, writeOk := true, failContent := .absent }
    { disk := .absent, cache := [(1, [("a", Value.vInt 1)])] } 1 []
    (.data [(3, [("b", Value.vInt 2)])]) rfl

/-- Counterexample to claim C5 as stated: in DB mode, update_item with a
rejecting validation hook returns a plain False and raises nothing — the
typed validation failure is silently swallowed into a boolean. -/
theorem claim_C5_counterexample :
    update_item_db (fun _ => some "validation failed") { commitOk := true }
      { table := [(1, [("title", Value.vStr "alpha")])],
        cache := [(1, [("title", Value.vStr "alpha")])] } 1
      [("title", Value.vStr "beta")] =
    (.ok false,
     { table := [(1, [("title", Value.vStr "alpha")])],
       cache := [(1, [("title", Value.vStr "alpha")])] }) := by decide

/-- Claim C5, amended: the validation hook's raised error propagates as a
typed validation failure for add in both backends and for update in the
flat-file backend; for update in the DB backend the error is caught by
the blanket exception handler and degraded into a plain boolean False. -/
theorem claim_C5_amended :
    (∀ (V : Validator) (env : Env) (st : FileStore) (item_id : Nat)
        (r : Record) (msg : String),
      hasKey st.cache item_id = false → V r = some msg →
      add_item V env st item_id r = (.error (.validationError msg), st)) ∧
    (∀ (V : Validator) (env : Env) (st : FileStore) (item_id : Nat)
        (u old : Record) (msg : String),
      dictGet st.cache item_id = some old →
      V (dictUpdate old u) = some msg →
      update_item V env st item_id u = (.error (.validationError msg), st)) ∧
    (∀ (V : Validator) (env : DBEnv) (st : DBStore) (item_id : Nat)
        (r : Record) (msg : String),
      hasKey st.cache item_id = false → V r = some msg →
      add_item_db V env st item_id r = (.error (.validationError msg), st)) ∧
    (∀ (V : Validator) (env : DBEnv) (st : DBStore) (item_id : Nat)
        (u row : Record) (msg : String),
      hasKey st.cache item_id = true →
      dictGet st.table item_id = some row →
      V (dictUpdate row u) = some msg →
      update_item_db V env st item_id u = (.ok false, st)) :=
  ⟨add_item_validation_propagates, update_item_validation_propagates,
   add_item_db_validation_propagates, update_item_db_validation_swallowed⟩

/-- Witness for the amended C5: a rejecting hook propagates out of the
flat-file add but is swallowed by the DB update. -/
theorem claim_C5_witness :
    add_item (fun _ => some "bad title") { lockOk := true, writeOk := true, failContent := .absent }
      { disk := .absent, cache := [] } 1 [("title", Value.vStr "")] =
      (.error (.validationError "bad title"),
       { disk := .absent, cache := [] }) ∧
    update_item_db (fun _ => some "bad title") { commitOk := true }
      { table := [(1, [("title", Value.vStr "alpha")])],
        cache := [(1, [("title", Value.vStr "alpha")])] } 1
      [("title", Value.vStr "")] =
      (.ok false,
       { table := [(1, [("title", Value.vStr "alpha")])],
         cache := [(1, [("title", Value.vStr "alpha")])] }) :=
  ⟨claim_C5_amended.1 (fun _ => some "bad title")
      { lockOk := true, writeOk := true, failContent := .absent } { disk := .absent, cache := [] }
      1 [("title", Value.vStr "")] "bad title" (by decide) rfl,
   claim_C5_amended.2.2.2 (fun _ => some "bad title") { commitOk := true }
      { table := [(1, [("title", Value.vStr "alpha")])],
        cache := [(1, [("title", Value.vStr "alpha")])] } 1
      [("title", Value.vStr "")] [("title", Value.vStr "alpha")]
      "bad title" (by decide) (by decide) rfl⟩

/-- Counterexample to claim C6 as stated: on a store whose only record
has an empty-string name field, search with the empty (always-matching)
query returns no records at all — the row[f] truthiness test filters the
record out, so not every record is returned. -/
theorem claim_C6_counterexample :
    search_items [(1, [("name", Value.vStr "")])] "" ["name"] = .ok [] := by
  decide

/-- Claim C6, amended: search with the empty query returns exactly the
rows having at least one named field present with a truthy value — hence
every record whenever each record has such a field — and search with the
pattern "[" fails with the InvalidPattern error rather than returning
results. -/
theorem claim_C6_amended (st : Dict Nat Record) (fields : List String) :
    search_items st "" fields =
      .ok ((st.filter (fun p => hasTruthyField (row_of p.1 p.2) fields)).map
        (fun p => row_of p.1 p.2)) ∧
    ((∀ p ∈ st, hasTruthyField (row_of p.1 p.2) fields = true) →
      search_items st "" fields = .ok (st.map (fun p => row_of p.1 p.2))) ∧
    search_items st "[" fields =
      .error (.invalidPattern
        "Invalid regex pattern: unterminated character class") := by
  have hc : re_compile "" = .ok Regex.eps := rfl
  have h1 : search_items st "" fields =
      .ok ((st.filter (fun p => hasTruthyField (row_of p.1 p.2) fields)).map
        (fun p => row_of p.1 p.2)) := by
    unfold search_items
    rw [hc]
    show Except.ok _ = Except.ok _
    congr 1
    congr 1
    exact List.filter_congr (fun p _ => rowMatches_eps fields (row_of p.1 p.2))
  refine ⟨h1, ?_, ?_⟩
  · intro hall
    rw [h1]
    congr 1
    congr 1
    exact List.filter_eq_self.mpr (fun p hp => hall p hp)
  · rfl

/-- Witness for the amended C6 on a two-record store whose name fields
are both truthy: the empty query returns both rows and "[" errors out. -/
theorem claim_C6_witness :
    search_items [(1, [("name", Value.vStr "x")]), (2, [("name", Value.vStr "y")])]
      "" ["name"] =
      .ok (([(1, [("name", Value.vStr "x")]), (2, [("name", Value.vStr "y")])] :
        Dict Nat Record).map (fun p => row_of p.1 p.2)) ∧
    search_items [(1, [("name", Value.vStr "x")]), (2, [("name", Value.vStr "y")])]
      "[" ["name"] =
      .error (.invalidPattern
        "Invalid regex pattern: unterminated character class") :=
  ⟨(claim_C6_amended [(1, [("name", Value.vStr "x")]),
      (2, [("name", Value.vStr "y")])] ["name"]).2.1 (by decide),
   (claim_C6_amended [(1, [("name", Value.vStr "x")]),
      (2, [("name", Value.vStr "y")])] ["name"]).2.2⟩

end CalTskCts
